import Mathlib

/-!
Shallow embedding of track.py (pytrack), a daily location-report pipeline.
Pure data transformations are embedded directly; network responses and the
filesystem are passed in explicitly as values. Exceptions raised by the
Python code are rendered with Except String; the exception text is kept
close to the CPython message but carries no semantic weight.
-/

/-- A decimal digit character: the character for n % 10. -/
def digitChar10 (n : ℕ) : Char := Char.ofNat (48 + n % 10)

/-- Two-digit zero-padded rendering, as strftime %m, %d, %I, %M and %S emit
for values below 100. -/
def two (n : ℕ) : String := String.mk [digitChar10 (n / 10), digitChar10 n]

/-- Four-digit zero-padded rendering, as strftime %Y emits for years below
10000. -/
def four (n : ℕ) : String :=
  String.mk [digitChar10 (n / 1000), digitChar10 (n / 100), digitChar10 (n / 10), digitChar10 n]

/-- A parsed date-time, the result of dateutil.parser.parse on a
tracking-service timestamp. -/
structure Timestamp where
  year : ℕ
  month : ℕ
  day : ℕ
  hour : ℕ
  minute : ℕ
  second : ℕ
deriving DecidableEq

/-- One record of the tracking-service response list (track.py Data rows).
Latitude and longitude are the JSON numbers; the remaining fields are carried
as the text the service sent, since track.py writes them through untouched. -/
structure TrackPoint where
  date : String
  latitude : ℚ
  longitude : ℚ
  speedMph : String
  accuracy : String
  ptype : String
deriving DecidableEq

/-- Placeholder point for total list indexing in statements. -/
def dfltPoint : TrackPoint := ⟨"", 0, 0, "", "", ""⟩

/-- One entry of the geocode response result list; the field is none when the
JSON object has no formatted_address key. -/
structure GeoResult where
  formatted_address : Option String
deriving DecidableEq

/-- A parsed geocode response: results is none when the JSON object has no
results key (the response always maps that key to a list when present). -/
structure GeoResponse where
  results : Option (List GeoResult)
deriving DecidableEq

/-- A parsed tracking-service response: data is none when the JSON object has
no Data key. -/
structure TrackResponse where
  data : Option (List TrackPoint)

/-- Split a character list at every occurrence of c (Python str.split). -/
def splitOnChar (c : Char) : List Char → List (List Char)
  | [] => [[]]
  | x :: xs =>
    let r := splitOnChar c xs
    if x = c then [] :: r
    else (x :: r.headD []) :: r.tail

/-- Value of a digit string, most significant first. -/
def digitsVal (l : List Char) : ℕ :=
  l.foldl (fun acc c => 10 * acc + (c.toNat - 48)) 0

/-- A non-empty all-digit character list parsed as a natural number. -/
def parseNatAll (l : List Char) : Option ℕ :=
  if l ≠ [] ∧ l.all Char.isDigit then some (digitsVal l) else none

/-- Modelled external library: dateutil.parser.parse, restricted to the
ISO-8601 shape YYYY-MM-DDTHH:MM:SS that the tracking service emits; any other
shape is a parse failure (dateutil raises, rendered as none here). -/
def parseTimestamp (s : String) : Option Timestamp :=
  match splitOnChar 'T' s.data with
  | [datePart, timePart] =>
    match splitOnChar '-' datePart, splitOnChar ':' timePart with
    | [y, mo, d], [h, mi, se] =>
      match parseNatAll y, parseNatAll mo, parseNatAll d,
            parseNatAll h, parseNatAll mi, parseNatAll se with
      | some yv, some mov, some dv, some hv, some miv, some sev =>
        some ⟨yv, mov, dv, hv, miv, sev⟩
      | _, _, _, _, _, _ => none
    | _, _ => none
  | _ => none

/-- strftime %I: the 12-hour clock hour (0 and 12 both print as 12). -/
def hour12 (h : ℕ) : ℕ := if h % 12 = 0 then 12 else h % 12

/-- The Date cell of a CSV row: strftime with format %Y-%m-%d %I:%M:%S %p
(track.py:209). -/
def formatDate12 (t : Timestamp) : String :=
  four t.year ++ "-" ++ two t.month ++ "-" ++ two t.day ++ " " ++
    two (hour12 t.hour) ++ ":" ++ two t.minute ++ ":" ++ two t.second ++ " " ++
    (if t.hour % 24 < 12 then "AM" else "PM")

/-- Python s with slice up to -5: drop the final five characters, empty when
the length is five or less. -/
def dropRight5 (s : String) : String :=
  String.mk (s.data.take (s.data.length - 5))

/-- Python str() on a JSON-number field (track.py:212-215). No claim inspects
these cells, so the canonical rendering of the rational stands in for the
float repr. -/
def ratStr (q : ℚ) : String :=
  (if q.num < 0 then "-" else "") ++ Nat.repr q.num.natAbs ++
    (if q.den = 1 then "" else "/" ++ Nat.repr q.den)

/-- query_geocode (track.py:222-249), with the network call supplied as the
parsed JSON response. Indexing a response without a results key raises
KeyError (track.py:243), rendered as Except.error; an empty result list, or a
first entry without a formatted_address key, leaves the address empty
(track.py:245-246); otherwise the first formatted address loses its last five
characters (track.py:247). -/
def query_geocode (resp : GeoResponse) : Except String String :=
  match resp.results with
  | none => .error "KeyError: results"
  | some addr =>
    match addr with
    | [] => .ok ""
    | a :: _ =>
      match a.formatted_address with
      | none => .ok ""
      | some fa => .ok (dropRight5 fa)

/-- The body of the CSV loop (track.py:204-217) for one point: parse the Date
field (dateutil raises on failure), geocode the coordinates, then emit the
seven cells Date, Lat, Lon, Speed (mph), Accuracy, Type, Address. -/
def pointRow (geo : ℚ → ℚ → GeoResponse) (p : TrackPoint) : Except String (List String) :=
  match parseTimestamp p.date with
  | none => .error "ParserError: unknown datetime format"
  | some plotDate =>
    (query_geocode (geo p.latitude p.longitude)).map fun address =>
      [formatDate12 plotDate, ratStr p.latitude, ratStr p.longitude,
       p.speedMph, p.accuracy, p.ptype, address]

/-- The CSV loop of append_csv_and_plots (track.py:204-217): one row per
point, in input order, stopping at the first raised exception. -/
def writeRows (geo : ℚ → ℚ → GeoResponse) : List TrackPoint → Except String (List (List String))
  | [] => .ok []
  | p :: ps =>
    match pointRow geo p with
    | .error e => .error e
    | .ok r =>
      match writeRows geo ps with
      | .error e => .error e
      | .ok rs => .ok (r :: rs)

/-- The CSV header row (track.py:201-202). -/
def headerRow : List String :=
  ["Date", "Lat", "Lon", "Speed (mph)", "Accuracy", "Type", "Address"]

/-- append_csv_and_plots (track.py:174-219): the produced CSV file is embedded
as its list of rows, header first; the random temp path and the file handle
are omitted. Iterating a missing result set (results is None, track.py:204)
raises TypeError before any point is processed. -/
def append_csv_and_plots (geo : ℚ → ℚ → GeoResponse) (results : Option (List TrackPoint)) :
    Except String (List (List String)) :=
  match results with
  | none => .error "TypeError: NoneType object is not iterable"
  | some pts => (writeRows geo pts).map (headerRow :: ·)

/-- fetch_plot_data (track.py:138-171), with the network call supplied as the
parsed JSON response: the Data field when present, otherwise None. -/
def fetch_plot_data (resp : TrackResponse) : Option (List TrackPoint) :=
  resp.data

/-- One coordinate under the %.4f format of track.py:273-274: the value
scaled by 10000 and rounded, then printed with a sign, an integer part and
exactly four fractional digits. -/
def format4 (q : ℚ) : String :=
  (if (round (q * 10000) : ℤ) < 0 then "-" else "") ++
    Nat.repr ((round (q * 10000) : ℤ).natAbs / 10000) ++ "." ++
    String.mk [digitChar10 ((round (q * 10000) : ℤ).natAbs / 1000),
               digitChar10 ((round (q * 10000) : ℤ).natAbs / 100),
               digitChar10 ((round (q * 10000) : ℤ).natAbs / 10),
               digitChar10 (round (q * 10000) : ℤ).natAbs]

/-- The marker a point contributes to the static-map URL (track.py:272-276):
a pipe, then latitude and longitude to four decimal places. -/
def marker (p : TrackPoint) : String :=
  "|" ++ format4 p.latitude ++ "," ++ format4 p.longitude

/-- Concatenation of a list of strings. -/
def strJoin : List String → String
  | [] => ""
  | s :: rest => s ++ strJoin rest

/-- fetch_map_image (track.py:252-287), URL construction only; the download
and the temp PNG are outside the model. Iterating a missing result set raises
TypeError (track.py:272). -/
def fetch_map_image (mapUrl : String) (results : Option (List TrackPoint)) :
    Except String String :=
  match results with
  | none => .error "TypeError: NoneType object is not iterable"
  | some pts => .ok (pts.foldl (fun url p => url ++ marker p) (mapUrl ++ "&markers="))

/-- The header table row emitted at count 0 (track.py:381-385), with the exact
whitespace of the Python triple-quoted literal. -/
def trHead (c0 c1 c2 c3 c4 c5 c6 : String) : String :=
  "<tr id=\"head\"><th class=\"l\">" ++ c0 ++ "</th>\n                           <th class=\"l\">" ++ c1 ++
    "</th><th class=\"l\">" ++ c2 ++ "</th>\n                           <th class=\"l\">" ++ c3 ++
    "</th><th class=\"l\">" ++ c4 ++ "</th>\n                           <th class=\"l\">" ++ c5 ++
    "</th><th>" ++ c6 ++ "</th></tr>"

/-- A body table row (track.py:388-398), with the alternate class text already
substituted and the exact whitespace of the Python triple-quoted literal. -/
def trBody (altClass c0 c1 c2 c3 c4 c5 c6 : String) : String :=
  "<tr id=\"body\"" ++ altClass ++ "><td class=\"l\">" ++ c0 ++ "</td>\n                           <td class=\"l\">" ++ c1 ++
    "</td><td class=\"l\">" ++ c2 ++ "</td>\n                           <td class=\"l\">" ++ c3 ++
    "</td><td class=\"l\">" ++ c4 ++ "</td>\n                           <td class=\"l\">" ++ c5 ++
    "</td><td>" ++ c6 ++ "</td></tr>"

/-- The CSV read-back loop of generate_pdf (track.py:377-400): count starts at
0 on the header row; a row with fewer than seven cells raises IndexError. -/
def tableLoop : List (List String) → ℕ → Except String String
  | [], _ => .ok ""
  | r :: rs, count =>
    match r with
    | c0 :: c1 :: c2 :: c3 :: c4 :: c5 :: c6 :: _ =>
      let piece :=
        if count = 0 then trHead c0 c1 c2 c3 c4 c5 c6
        else trBody (if count % 2 = 0 then " class=\"even\"" else "") c0 c1 c2 c3 c4 c5 c6
      (tableLoop rs (count + 1)).map (piece ++ ·)
    | _ => .error "IndexError: list index out of range"

/-- The HTML-table portion of generate_pdf (track.py:372-402), applied to the
CSV rows read back from the file. The stylesheet, heading and map image that
surround the table, and the PDF conversion, are outside the model. -/
def generate_pdf_table (rows : List (List String)) : Except String String :=
  (tableLoop rows 0).map
    (fun t => "<div id=\"data\"><table style=\"width: 100%;\">" ++ t ++ "</table></div>")

/-- The try-block of main (track.py:73-110) from the fetch onward: fetch the
points, write the CSV, build the map URL, build the report table. -/
def run_pipeline (mapUrl : String) (geo : ℚ → ℚ → GeoResponse) (resp : TrackResponse) :
    Except String (List (List String) × String × String) := do
  let results := fetch_plot_data resp
  let rows ← append_csv_and_plots geo results
  let url ← fetch_map_image mapUrl results
  let table ← generate_pdf_table rows
  pure (rows, url, table)

/-- main (track.py:45-113): the whole pipeline sits in one try/except whose
handler prints the first exception argument and falls through, so the process
always finishes normally. The value is the pair (printed lines, exit status). -/
def run_main (mapUrl : String) (geo : ℚ → ℚ → GeoResponse) (resp : TrackResponse) :
    List String × ℕ :=
  match run_pipeline mapUrl geo resp with
  | .ok _ => ([], 0)
  | .error e => ([e], 0)

/-- strftime %b month abbreviation. -/
def monthAbbrev : ℕ → String
  | 1 => "Jan"
  | 2 => "Feb"
  | 3 => "Mar"
  | 4 => "Apr"
  | 5 => "May"
  | 6 => "Jun"
  | 7 => "Jul"
  | 8 => "Aug"
  | 9 => "Sep"
  | 10 => "Oct"
  | 11 => "Nov"
  | 12 => "Dec"
  | _ => ""

/-- The dated PDF name, strftime %b %d plus extension (track.py:436). -/
def targetPdfName (today : Timestamp) : String :=
  monthAbbrev today.month ++ " " ++ two today.day ++ ".pdf"

/-- ASCII lowercase of one character (Python str.lower on the names in play). -/
def lowerChar (c : Char) : Char :=
  if 65 ≤ c.toNat ∧ c.toNat ≤ 90 then Char.ofNat (c.toNat + 32) else c

/-- ASCII lowercase of a string. -/
def lowerStr (s : String) : String := String.mk (s.data.map lowerChar)

/-- The dated CSV name, strftime %b_%d lowercased plus extension
(track.py:435). -/
def targetCsvName (today : Timestamp) : String :=
  lowerStr (monthAbbrev today.month ++ "_" ++ two today.day) ++ ".csv"

/-- A filesystem side effect of the distributor. -/
inductive FsOp where
  | copy (src dst : String)
  | unlink (path : String)
deriving DecidableEq

/-- The distributor outcome: the side effects performed in order, and the
pending exception when one of the copies raised. -/
structure FsOutcome where
  ops : List FsOp
  err : Option String
deriving DecidableEq

/-- One shutil.copy2 call under an environment stating which copies succeed.
Once an exception is pending the remaining calls are dead code, as the raise
propagates out of copy_files_to_destination. -/
def tryCopy (copyOk : String → String → Bool) (src dst : String) (acc : FsOutcome) : FsOutcome :=
  match acc.err with
  | some _ => acc
  | none =>
    if copyOk src dst then ⟨acc.ops ++ [.copy src dst], none⟩
    else ⟨acc.ops, some ("copy failed: " ++ dst)⟩

/-- One iteration of the destination loop (track.py:438-447): the dated PDF,
the fixed ~Today.pdf, then the dated CSV into the csv subdirectory. -/
def copyToTarget (copyOk : String → String → Bool) (tmpPdf tmpCsv pdfName csvName : String)
    (acc : FsOutcome) (target : String) : FsOutcome :=
  tryCopy copyOk tmpCsv (target ++ "/csv" ++ "/" ++ csvName)
    (tryCopy copyOk tmpPdf (target ++ "/" ++ "~Today.pdf")
      (tryCopy copyOk tmpPdf (target ++ "/" ++ pdfName) acc))

/-- copy_files_to_destination (track.py:420-451): loop over the destinations,
then, only when the loop finished without raising, unlink the two staging
files (track.py:450-451). -/
def copy_files_to_destination (copyOk : String → String → Bool) (targets : List String)
    (today : Timestamp) (tmpPdf tmpCsv : String) : FsOutcome :=
  let res := targets.foldl
    (copyToTarget copyOk tmpPdf tmpCsv (targetPdfName today) (targetCsvName today)) ⟨[], none⟩
  match res.err with
  | some _ => res
  | none => ⟨res.ops ++ [.unlink tmpPdf, .unlink tmpCsv], none⟩

/-- Pair each list element with a counter starting at n. -/
def countFrom {α : Type} : ℕ → List α → List (ℕ × α)
  | _, [] => []
  | n, a :: as => (n, a) :: countFrom (n + 1) as

/-- A geocoding environment that always answers with an empty result list. -/
def anyGeo : ℚ → ℚ → GeoResponse := fun _ _ => ⟨some []⟩

/-- The geocoding environment of the three-point scenario of the spec. -/
def c5geo : ℚ → ℚ → GeoResponse :=
  fun _ _ => ⟨some [⟨some "123 Main St, Springfield, IL 62701, USA"⟩]⟩

/-- First scenario point. -/
def sp1 : TrackPoint := ⟨"2023-06-01T08:00:00", 39, -89, "12.4", "5.0", "GPS"⟩

/-- Second scenario point. -/
def sp2 : TrackPoint := ⟨"2023-06-01T12:30:00", 40, -90, "0.0", "8.0", "GPS"⟩

/-- Third scenario point. -/
def sp3 : TrackPoint := ⟨"2023-06-01T20:15:00", 41, -91, "3.1", "6.5", "Network"⟩

/-- The CSV rows of the three-point scenario, used as a concrete witness. -/
def wrows : List (List String) :=
  (append_csv_and_plots c5geo (some [sp1, sp2, sp3])).toOption.getD []

/-- A geocoding environment that answers the empty result list at latitude 1
and a street address elsewhere. -/
def w2geo : ℚ → ℚ → GeoResponse :=
  fun lat _ =>
    if lat = 1 then ⟨some []⟩ else ⟨some [⟨some "9 Elm St, Smalltown, KS 66666, USA"⟩]⟩

/-- Two points, the first of which geocodes to the empty result list under
w2geo. -/
def w2pts : List TrackPoint :=
  [⟨"2023-06-01T08:00:00", 1, 2, "0.0", "5.0", "GPS"⟩,
   ⟨"2023-06-01T09:00:00", 3, 4, "1.0", "5.0", "GPS"⟩]

/-- A concrete report date for the distributor witnesses. -/
def wtoday : Timestamp := ⟨2023, 6, 1, 9, 0, 0⟩

/-- A copy environment in which only the dated-PDF copy into destination B
fails. -/
def wcopyOk : String → String → Bool := fun _ dst => dst != "B/Jun 01.pdf"

theorem getD_mem_of_lt {α : Type} (l : List α) (i : ℕ) (d : α) (h : i < l.length) :
    l.getD i d ∈ l := by
  induction l generalizing i with
  | nil => simp at h
  | cons a as ih =>
    cases i with
    | zero => simp
    | succ n =>
      simp only [List.getD_cons_succ]
      exact List.mem_cons_of_mem a (ih n (by simp at h; omega))

theorem query_geocode_isOk : ∀ (resp : GeoResponse), resp.results.isSome →
    ∃ s, query_geocode resp = .ok s
  | ⟨none⟩, h => absurd h (by simp)
  | ⟨some []⟩, _ => ⟨"", rfl⟩
  | ⟨some (⟨none⟩ :: _)⟩, _ => ⟨"", rfl⟩
  | ⟨some (⟨some fa⟩ :: _)⟩, _ => ⟨dropRight5 fa, rfl⟩

theorem query_geocode_empty : ∀ (resp : GeoResponse), resp.results = some [] →
    query_geocode resp = .ok ""
  | ⟨none⟩, h => by simp at h
  | ⟨some []⟩, _ => rfl
  | ⟨some (_ :: _)⟩, h => by simp at h

theorem pointRow_eq (geo : ℚ → ℚ → GeoResponse) (p : TrackPoint) (t : Timestamp) (s : String)
    (ht : parseTimestamp p.date = some t)
    (hs : query_geocode (geo p.latitude p.longitude) = .ok s) :
    pointRow geo p = .ok [formatDate12 t, ratStr p.latitude, ratStr p.longitude,
      p.speedMph, p.accuracy, p.ptype, s] := by
  simp only [pointRow, ht, hs, Except.map]

theorem pointRow_isOk (geo : ℚ → ℚ → GeoResponse) (p : TrackPoint)
    (h1 : (parseTimestamp p.date).isSome)
    (h2 : ((geo p.latitude p.longitude).results).isSome) :
    ∃ r, pointRow geo p = .ok r := by
  obtain ⟨t, ht⟩ := Option.isSome_iff_exists.mp h1
  obtain ⟨s, hs⟩ := query_geocode_isOk _ h2
  exact ⟨[formatDate12 t, ratStr p.latitude, ratStr p.longitude,
    p.speedMph, p.accuracy, p.ptype, s], pointRow_eq geo p t s ht hs⟩

theorem pointRow_len7 (geo : ℚ → ℚ → GeoResponse) (p : TrackPoint) (r : List String)
    (h : pointRow geo p = .ok r) : r.length = 7 := by
  unfold pointRow at h
  cases hp : parseTimestamp p.date with
  | none => rw [hp] at h; exact absurd h (by simp)
  | some t =>
    rw [hp] at h
    cases hq : query_geocode (geo p.latitude p.longitude) with
    | error e => rw [hq] at h; exact absurd h (by simp [Except.map])
    | ok a =>
      rw [hq] at h
      simp only [Except.map, Except.ok.injEq] at h
      rw [← h]
      rfl

theorem writeRows_ok_spec (geo : ℚ → ℚ → GeoResponse) (pts : List TrackPoint) :
    ∀ body, writeRows geo pts = .ok body →
      body.length = pts.length ∧
      ∀ i, i < pts.length → pointRow geo (pts.getD i dfltPoint) = .ok (body.getD i []) := by
  induction pts with
  | nil =>
    intro body h
    simp only [writeRows, Except.ok.injEq] at h
    subst h
    exact ⟨rfl, fun i hi => absurd hi (Nat.not_lt_zero i)⟩
  | cons p ps ih =>
    intro body h
    rw [writeRows] at h
    cases hr : pointRow geo p with
    | error e => rw [hr] at h; exact absurd h (by simp)
    | ok r =>
      rw [hr] at h
      cases hw : writeRows geo ps with
      | error e => rw [hw] at h; exact absurd h (by simp)
      | ok rs =>
        rw [hw] at h
        simp only [Except.ok.injEq] at h
        subst h
        obtain ⟨hlen, hidx⟩ := ih rs hw
        refine ⟨by simp [hlen], ?_⟩
        intro i hi
        cases i with
        | zero => simpa using hr
        | succ n =>
          simp only [List.getD_cons_succ]
          exact hidx n (by simp at hi; omega)

theorem writeRows_isOk (geo : ℚ → ℚ → GeoResponse) (pts : List TrackPoint)
    (h : ∀ p ∈ pts, (parseTimestamp p.date).isSome ∧
      ((geo p.latitude p.longitude).results).isSome) :
    ∃ body, writeRows geo pts = .ok body := by
  induction pts with
  | nil => exact ⟨[], rfl⟩
  | cons p ps ih =>
    obtain ⟨r, hr⟩ := pointRow_isOk geo p (h p (by simp)).1 (h p (by simp)).2
    obtain ⟨body, hb⟩ := ih (fun q hq => h q (by simp [hq]))
    refine ⟨r :: body, ?_⟩
    rw [writeRows, hr, hb]

theorem writeRows_len7 (geo : ℚ → ℚ → GeoResponse) (pts : List TrackPoint)
    (body : List (List String)) (h : writeRows geo pts = .ok body) :
    ∀ r ∈ body, r.length = 7 := by
  induction pts generalizing body with
  | nil =>
    simp only [writeRows, Except.ok.injEq] at h
    subst h
    simp
  | cons p ps ih =>
    rw [writeRows] at h
    cases hr : pointRow geo p with
    | error e => rw [hr] at h; exact absurd h (by simp)
    | ok r =>
      rw [hr] at h
      cases hw : writeRows geo ps with
      | error e => rw [hw] at h; exact absurd h (by simp)
      | ok rs =>
        rw [hw] at h
        simp only [Except.ok.injEq] at h
        subst h
        intro q hq
        rcases List.mem_cons.mp hq with hq | hq
        · subst hq; exact pointRow_len7 geo p q hr
        · exact ih rs hw q hq

/-- C1: for every non-empty point sequence, a CSV produced by
append_csv_and_plots has the header row first and then exactly one data row
per point, each data row being the row computed from the point at the same
position, so row order equals input order with no re-sorting. -/
theorem append_preserves_order (geo : ℚ → ℚ → GeoResponse) (pts : List TrackPoint)
    (rows : List (List String)) (_hne : pts ≠ [])
    (h : append_csv_and_plots geo (some pts) = .ok rows) :
    ∃ body, rows = headerRow :: body ∧ body.length = pts.length ∧
      ∀ i, i < pts.length → pointRow geo (pts.getD i dfltPoint) = .ok (body.getD i []) := by
  simp only [append_csv_and_plots] at h
  cases hw : writeRows geo pts with
  | error e => rw [hw] at h; exact absurd h (by simp [Except.map])
  | ok body =>
    rw [hw] at h
    simp only [Except.map, Except.ok.injEq] at h
    obtain ⟨hlen, hidx⟩ := writeRows_ok_spec geo pts body hw
    exact ⟨body, h.symm, hlen, hidx⟩

/-- Witness for C1 at the three-point scenario. -/
theorem append_preserves_order_witness :
    ([sp1, sp2, sp3] ≠ ([] : List TrackPoint)) ∧
    append_csv_and_plots c5geo (some [sp1, sp2, sp3]) = .ok wrows ∧
    (∃ body, wrows = headerRow :: body ∧ body.length = [sp1, sp2, sp3].length ∧
      ∀ i, i < [sp1, sp2, sp3].length →
        pointRow c5geo ([sp1, sp2, sp3].getD i dfltPoint) = .ok (body.getD i [])) :=
  ⟨by simp, by rfl, append_preserves_order c5geo [sp1, sp2, sp3] wrows (by simp) (by rfl)⟩

/-- C2: a point whose geocode response carries an empty result list gets the
empty string as its address, its CSV row still carries that empty address in
the Address column, and every other row is still written from its own lookup:
the empty lookup aborts nothing. -/
theorem empty_geocode_result_isolated (geo : ℚ → ℚ → GeoResponse) (pts : List TrackPoint)
    (i : ℕ)
    (hall : ∀ p ∈ pts, (parseTimestamp p.date).isSome ∧
      ((geo p.latitude p.longitude).results).isSome)
    (hi : i < pts.length)
    (hempty : (geo (pts.getD i dfltPoint).latitude (pts.getD i dfltPoint).longitude).results
      = some []) :
    query_geocode (geo (pts.getD i dfltPoint).latitude (pts.getD i dfltPoint).longitude)
      = .ok "" ∧
    ∃ body, append_csv_and_plots geo (some pts) = .ok (headerRow :: body) ∧
      body.length = pts.length ∧
      (body.getD i []).getD 6 "MISSING" = "" ∧
      ∀ j, j < pts.length → pointRow geo (pts.getD j dfltPoint) = .ok (body.getD j []) := by
  have hq := query_geocode_empty _ hempty
  refine ⟨hq, ?_⟩
  obtain ⟨body, hw⟩ := writeRows_isOk geo pts hall
  obtain ⟨hlen, hidx⟩ := writeRows_ok_spec geo pts body hw
  refine ⟨body, by simp [append_csv_and_plots, hw, Except.map], hlen, ?_, hidx⟩
  have hp := hall _ (getD_mem_of_lt pts i dfltPoint hi)
  obtain ⟨t, ht⟩ := Option.isSome_iff_exists.mp hp.1
  have hrow := pointRow_eq geo _ t "" ht hq
  have hcell := hidx i hi
  rw [hrow] at hcell
  simp only [Except.ok.injEq] at hcell
  rw [← hcell]
  rfl

/-- Witness for C2: two points, the first geocoding to an empty result list. -/
theorem empty_geocode_result_isolated_witness :
    (∀ p ∈ w2pts, (parseTimestamp p.date).isSome ∧
      ((w2geo p.latitude p.longitude).results).isSome) ∧
    (0 < w2pts.length) ∧
    ((w2geo (w2pts.getD 0 dfltPoint).latitude (w2pts.getD 0 dfltPoint).longitude).results
      = some []) ∧
    (query_geocode (w2geo (w2pts.getD 0 dfltPoint).latitude
        (w2pts.getD 0 dfltPoint).longitude) = .ok "" ∧
      ∃ body, append_csv_and_plots w2geo (some w2pts) = .ok (headerRow :: body) ∧
        body.length = w2pts.length ∧
        (body.getD 0 []).getD 6 "MISSING" = "" ∧
        ∀ j, j < w2pts.length → pointRow w2geo (w2pts.getD j dfltPoint) = .ok (body.getD j [])) :=
  ⟨by decide, by decide, by decide,
    empty_geocode_result_isolated w2geo w2pts 0 (by decide) (by decide) (by decide)⟩

/-- C3: the code contradicts this claim. track.py:243 indexes the parsed JSON
response with the results key before any check, so a response without that
key raises KeyError, aborting the run, instead of degrading to the empty
address the spec prescribes as the implemented policy. This theorem evaluates
query_geocode at the failing input. -/
theorem query_geocode_missing_results_key_raises :
    query_geocode ⟨none⟩ = .error "KeyError: results" := rfl

/-- C4 counterexample: with a response that lacks the Data field,
fetch_plot_data does return none, but the pipeline does not run to
completion: the CSV writer raises iterating None and the run aborts, so no
effectively-empty report is produced. -/
theorem missing_data_field_aborts_pipeline :
    fetch_plot_data ⟨none⟩ = none ∧
    run_pipeline "http://maps" anyGeo ⟨none⟩ =
      .error "TypeError: NoneType object is not iterable" :=
  ⟨rfl, rfl⟩

/-- C4 amended: when the tracking-service response lacks the Data field,
fetch_plot_data returns none; the CSV writer then fails iterating it, the
error propagates out of the pipeline (to be printed by the top-level
handler), and neither CSV, map URL nor report table is produced. -/
theorem fetch_none_then_pipeline_errors (mapUrl : String) (geo : ℚ → ℚ → GeoResponse) :
    fetch_plot_data ⟨none⟩ = none ∧
    run_pipeline mapUrl geo ⟨none⟩ = .error "TypeError: NoneType object is not iterable" :=
  ⟨rfl, rfl⟩

/-- C5: the three-point scenario. Each row keeps the geocoded address with
its last five characters removed, and the Date column is re-emitted on the
12-hour clock: 08:00:00 AM, 12:30:00 PM, 08:15:00 PM. -/
theorem scenario_three_points_formatting :
    (append_csv_and_plots c5geo (some [sp1, sp2, sp3])).map
        (fun rows => (rows.map (fun r => r.headD ""), rows.map (fun r => r.getD 6 ""))) =
      .ok (["Date", "2023-06-01 08:00:00 AM", "2023-06-01 12:30:00 PM",
            "2023-06-01 08:15:00 PM"],
           ["Address", "123 Main St, Springfield, IL 62701",
            "123 Main St, Springfield, IL 62701", "123 Main St, Springfield, IL 62701"]) := by
  rfl

/-- C6 counterexample: a run in which a pipeline stage raises. main catches
the exception, prints its message, and returns normally: the exit status is
0, not non-zero as claimed. -/
theorem caught_error_exits_zero :
    run_pipeline "http://maps" anyGeo ⟨none⟩ =
      .error "TypeError: NoneType object is not iterable" ∧
    run_main "http://maps" anyGeo ⟨none⟩ =
      (["TypeError: NoneType object is not iterable"], 0) :=
  ⟨rfl, rfl⟩

/-- C6 amended: on any error raised inside the pipeline, main catches it at
its single top-level handler, prints the message, and the process exits with
status zero (success), since the exception never goes unhandled. -/
theorem main_catches_error_prints_exits_zero (mapUrl : String) (geo : ℚ → ℚ → GeoResponse)
    (resp : TrackResponse) (e : String)
    (h : run_pipeline mapUrl geo resp = .error e) :
    run_main mapUrl geo resp = ([e], 0) := by
  unfold run_main
  rw [h]

/-- Witness for the amended C6 at a concrete erroring run. -/
theorem main_catches_error_prints_exits_zero_witness :
    run_main "http://maps" anyGeo ⟨none⟩ =
      (["TypeError: NoneType object is not iterable"], 0) :=
  main_catches_error_prints_exits_zero "http://maps" anyGeo ⟨none⟩
    "TypeError: NoneType object is not iterable" rfl

theorem fetch_map_foldl (init : String) (pts : List TrackPoint) :
    pts.foldl (fun url p => url ++ marker p) init = init ++ strJoin (pts.map marker) := by
  induction pts generalizing init with
  | nil => simp [strJoin, String.append_empty]
  | cons p ps ih =>
    simp only [List.foldl_cons, List.map_cons, strJoin]
    rw [ih (init ++ marker p), String.append_assoc]

theorem digitChar10_isDigit (n : ℕ) : (digitChar10 n).isDigit = true := by
  unfold digitChar10
  have h : n % 10 < 10 := Nat.mod_lt _ (by omega)
  generalize hg : n % 10 = r at h ⊢
  interval_cases r <;> decide

/-- C8: the static-map URL is the configured base plus one pipe-separated
lat,lon marker per point, in order; every coordinate is printed with exactly
four digits after the decimal point; zero points leave zero markers. -/
theorem map_url_one_marker_per_point (mapUrl : String) (pts : List TrackPoint) :
    fetch_map_image mapUrl (some pts) =
      .ok (mapUrl ++ "&markers=" ++ strJoin (pts.map marker)) ∧
    (∀ q : ℚ, ∃ head tail, format4 q = head ++ "." ++ tail ∧
      tail.length = 4 ∧ tail.data.all Char.isDigit = true) ∧
    fetch_map_image mapUrl (some ([] : List TrackPoint)) = .ok (mapUrl ++ "&markers=") := by
  refine ⟨?_, ?_, ?_⟩
  · simp only [fetch_map_image]
    rw [fetch_map_foldl]
  · intro q
    refine ⟨(if (round (q * 10000) : ℤ) < 0 then "-" else "") ++
      Nat.repr ((round (q * 10000) : ℤ).natAbs / 10000),
      String.mk [digitChar10 ((round (q * 10000) : ℤ).natAbs / 1000),
                 digitChar10 ((round (q * 10000) : ℤ).natAbs / 100),
                 digitChar10 ((round (q * 10000) : ℤ).natAbs / 10),
                 digitChar10 (round (q * 10000) : ℤ).natAbs], rfl, rfl, ?_⟩
    simp [digitChar10_isDigit]
  · rfl

/-- C10: calling the distributor with an empty destination list performs no
copy at all, yet still unlinks the staging PDF and CSV: the outputs are
destroyed without having been delivered anywhere. -/
theorem empty_destinations_deletes_staging (copyOk : String → String → Bool)
    (today : Timestamp) (tmpPdf tmpCsv : String) :
    copy_files_to_destination copyOk [] today tmpPdf tmpCsv =
      ⟨[.unlink tmpPdf, .unlink tmpCsv], none⟩ ∧
    ∀ s d, FsOp.copy s d ∉ (copy_files_to_destination copyOk [] today tmpPdf tmpCsv).ops := by
  refine ⟨rfl, ?_⟩
  intro s d
  simp [copy_files_to_destination]

theorem tryCopy_err_stable (copyOk : String → String → Bool) (src dst : String)
    (acc : FsOutcome) (h : acc.err.isSome) : tryCopy copyOk src dst acc = acc := by
  obtain ⟨e, he⟩ := Option.isSome_iff_exists.mp h
  unfold tryCopy
  rw [he]

theorem copyToTarget_err_stable (copyOk : String → String → Bool)
    (tmpPdf tmpCsv pdfName csvName target : String) (acc : FsOutcome) (h : acc.err.isSome) :
    copyToTarget copyOk tmpPdf tmpCsv pdfName csvName acc target = acc := by
  unfold copyToTarget
  rw [tryCopy_err_stable copyOk tmpPdf (target ++ "/" ++ pdfName) acc h,
      tryCopy_err_stable copyOk tmpPdf (target ++ "/" ++ "~Today.pdf") acc h,
      tryCopy_err_stable copyOk tmpCsv (target ++ "/csv" ++ "/" ++ csvName) acc h]

theorem foldl_copyToTarget_err_stable (copyOk : String → String → Bool)
    (tmpPdf tmpCsv pdfName csvName : String) (ts : List String) (acc : FsOutcome)
    (h : acc.err.isSome) :
    ts.foldl (copyToTarget copyOk tmpPdf tmpCsv pdfName csvName) acc = acc := by
  induction ts with
  | nil => rfl
  | cons t ts ih =>
    simp only [List.foldl_cons]
    rw [copyToTarget_err_stable copyOk tmpPdf tmpCsv pdfName csvName t acc h]
    exact ih

theorem tryCopy_ops_append (copyOk : String → String → Bool) (src dst : String)
    (acc : FsOutcome) :
    ∃ l, (tryCopy copyOk src dst acc).ops = acc.ops ++ l ∧
      ∀ op ∈ l, ∀ p, op ≠ FsOp.unlink p := by
  unfold tryCopy
  cases he : acc.err with
  | some e => exact ⟨[], by simp, by simp⟩
  | none =>
    by_cases hc : copyOk src dst
    · exact ⟨[.copy src dst], by simp [hc], by simp⟩
    · exact ⟨[], by simp [hc], by simp⟩

theorem copyToTarget_ops_append (copyOk : String → String → Bool)
    (tmpPdf tmpCsv pdfName csvName target : String) (acc : FsOutcome) :
    ∃ l, (copyToTarget copyOk tmpPdf tmpCsv pdfName csvName acc target).ops = acc.ops ++ l ∧
      ∀ op ∈ l, ∀ p, op ≠ FsOp.unlink p := by
  obtain ⟨l1, h1, c1⟩ := tryCopy_ops_append copyOk tmpPdf (target ++ "/" ++ pdfName) acc
  obtain ⟨l2, h2, c2⟩ := tryCopy_ops_append copyOk tmpPdf (target ++ "/" ++ "~Today.pdf")
    (tryCopy copyOk tmpPdf (target ++ "/" ++ pdfName) acc)
  obtain ⟨l3, h3, c3⟩ := tryCopy_ops_append copyOk tmpCsv (target ++ "/csv" ++ "/" ++ csvName)
    (tryCopy copyOk tmpPdf (target ++ "/" ++ "~Today.pdf")
      (tryCopy copyOk tmpPdf (target ++ "/" ++ pdfName) acc))
  refine ⟨l1 ++ l2 ++ l3, ?_, ?_⟩
  · unfold copyToTarget
    rw [h3, h2, h1]
    simp [List.append_assoc]
  · intro op hop p
    simp only [List.mem_append] at hop
    rcases hop with (hop | hop) | hop
    · exact c1 op hop p
    · exact c2 op hop p
    · exact c3 op hop p

theorem foldl_copyToTarget_ops_append (copyOk : String → String → Bool)
    (tmpPdf tmpCsv pdfName csvName : String) (ts : List String) :
    ∀ acc : FsOutcome,
      ∃ l, (ts.foldl (copyToTarget copyOk tmpPdf tmpCsv pdfName csvName) acc).ops =
        acc.ops ++ l ∧ ∀ op ∈ l, ∀ p, op ≠ FsOp.unlink p := by
  induction ts with
  | nil => exact fun acc => ⟨[], by simp, by simp⟩
  | cons t ts ih =>
    intro acc
    obtain ⟨l1, h1, c1⟩ := copyToTarget_ops_append copyOk tmpPdf tmpCsv pdfName csvName t acc
    obtain ⟨l2, h2, c2⟩ := ih (copyToTarget copyOk tmpPdf tmpCsv pdfName csvName acc t)
    refine ⟨l1 ++ l2, ?_, ?_⟩
    · simp only [List.foldl_cons]
      rw [h2, h1]
      simp [List.append_assoc]
    · intro op hop p
      simp only [List.mem_append] at hop
      rcases hop with hop | hop
      · exact c1 op hop p
      · exact c2 op hop p

/-- C7: with at least two destinations, if every copy into the first
destination succeeds and some copy into the second fails, the distributor
ends with the exception pending for its caller, the first destination has
already received its dated PDF (partially-distributed state), and neither
staging file has been unlinked, since cleanup runs only after the whole loop
finishes without raising. -/
theorem copy_failure_keeps_staging_files (copyOk : String → String → Bool) (today : Timestamp)
    (tmpPdf tmpCsv t1 t2 : String) (rest : List String)
    (h1a : copyOk tmpPdf (t1 ++ "/" ++ targetPdfName today) = true)
    (h1b : copyOk tmpPdf (t1 ++ "/" ++ "~Today.pdf") = true)
    (h1c : copyOk tmpCsv (t1 ++ "/csv" ++ "/" ++ targetCsvName today) = true)
    (h2 : copyOk tmpPdf (t2 ++ "/" ++ targetPdfName today) = false ∨
          copyOk tmpPdf (t2 ++ "/" ++ "~Today.pdf") = false ∨
          copyOk tmpCsv (t2 ++ "/csv" ++ "/" ++ targetCsvName today) = false) :
    (copy_files_to_destination copyOk (t1 :: t2 :: rest) today tmpPdf tmpCsv).err.isSome
      = true ∧
    FsOp.copy tmpPdf (t1 ++ "/" ++ targetPdfName today) ∈
      (copy_files_to_destination copyOk (t1 :: t2 :: rest) today tmpPdf tmpCsv).ops ∧
    FsOp.unlink tmpPdf ∉
      (copy_files_to_destination copyOk (t1 :: t2 :: rest) today tmpPdf tmpCsv).ops ∧
    FsOp.unlink tmpCsv ∉
      (copy_files_to_destination copyOk (t1 :: t2 :: rest) today tmpPdf tmpCsv).ops := by
  have hacc1 : copyToTarget copyOk tmpPdf tmpCsv (targetPdfName today) (targetCsvName today)
      ⟨[], none⟩ t1 =
      ⟨[FsOp.copy tmpPdf (t1 ++ "/" ++ targetPdfName today),
        FsOp.copy tmpPdf (t1 ++ "/" ++ "~Today.pdf"),
        FsOp.copy tmpCsv (t1 ++ "/csv" ++ "/" ++ targetCsvName today)], none⟩ := by
    simp [copyToTarget, tryCopy, h1a, h1b, h1c]
  have herr2 : (copyToTarget copyOk tmpPdf tmpCsv (targetPdfName today) (targetCsvName today)
      ⟨[FsOp.copy tmpPdf (t1 ++ "/" ++ targetPdfName today),
        FsOp.copy tmpPdf (t1 ++ "/" ++ "~Today.pdf"),
        FsOp.copy tmpCsv (t1 ++ "/csv" ++ "/" ++ targetCsvName today)], none⟩
      t2).err.isSome = true := by
    rcases h2 with h2 | h2 | h2
    · simp [copyToTarget, tryCopy, h2]
    · cases hb : copyOk tmpPdf (t2 ++ "/" ++ targetPdfName today) <;>
        simp [copyToTarget, tryCopy, hb, h2]
    · cases hb1 : copyOk tmpPdf (t2 ++ "/" ++ targetPdfName today) <;>
        cases hb2 : copyOk tmpPdf (t2 ++ "/" ++ "~Today.pdf") <;>
          simp [copyToTarget, tryCopy, hb1, hb2, h2]
  have hres : copy_files_to_destination copyOk (t1 :: t2 :: rest) today tmpPdf tmpCsv =
      copyToTarget copyOk tmpPdf tmpCsv (targetPdfName today) (targetCsvName today)
        ⟨[FsOp.copy tmpPdf (t1 ++ "/" ++ targetPdfName today),
          FsOp.copy tmpPdf (t1 ++ "/" ++ "~Today.pdf"),
          FsOp.copy tmpCsv (t1 ++ "/csv" ++ "/" ++ targetCsvName today)], none⟩ t2 := by
    simp only [copy_files_to_destination, List.foldl_cons]
    rw [hacc1]
    rw [foldl_copyToTarget_err_stable copyOk tmpPdf tmpCsv (targetPdfName today)
      (targetCsvName today) rest _ herr2]
    obtain ⟨e, he⟩ := Option.isSome_iff_exists.mp herr2
    rw [he]
  obtain ⟨l, hl, hc⟩ := copyToTarget_ops_append copyOk tmpPdf tmpCsv (targetPdfName today)
    (targetCsvName today) t2
    ⟨[FsOp.copy tmpPdf (t1 ++ "/" ++ targetPdfName today),
      FsOp.copy tmpPdf (t1 ++ "/" ++ "~Today.pdf"),
      FsOp.copy tmpCsv (t1 ++ "/csv" ++ "/" ++ targetCsvName today)], none⟩
  refine ⟨by rw [hres]; exact herr2, ?_, ?_, ?_⟩
  · rw [hres, hl]
    simp
  · rw [hres, hl]
    intro hmem
    simp only [List.mem_append] at hmem
    rcases hmem with hmem | hmem
    · simp at hmem
    · exact hc _ hmem tmpPdf rfl
  · rw [hres, hl]
    intro hmem
    simp only [List.mem_append] at hmem
    rcases hmem with hmem | hmem
    · simp at hmem
    · exact hc _ hmem tmpCsv rfl

/-- Witness for C7: destinations A and B, where only the dated-PDF copy into
B fails. -/
theorem copy_failure_keeps_staging_files_witness :
    (wcopyOk "p" ("A" ++ "/" ++ targetPdfName wtoday) = true) ∧
    (wcopyOk "p" ("A" ++ "/" ++ "~Today.pdf") = true) ∧
    (wcopyOk "c" ("A" ++ "/csv" ++ "/" ++ targetCsvName wtoday) = true) ∧
    (wcopyOk "p" ("B" ++ "/" ++ targetPdfName wtoday) = false) ∧
    ((copy_files_to_destination wcopyOk ["A", "B"] wtoday "p" "c").err.isSome = true ∧
      FsOp.copy "p" ("A" ++ "/" ++ targetPdfName wtoday) ∈
        (copy_files_to_destination wcopyOk ["A", "B"] wtoday "p" "c").ops ∧
      FsOp.unlink "p" ∉ (copy_files_to_destination wcopyOk ["A", "B"] wtoday "p" "c").ops ∧
      FsOp.unlink "c" ∉ (copy_files_to_destination wcopyOk ["A", "B"] wtoday "p" "c").ops) :=
  ⟨by decide, by decide, by decide, by decide,
    copy_failure_keeps_staging_files wcopyOk wtoday "p" "c" "A" "B" []
      (by decide) (by decide) (by decide) (Or.inl (by decide))⟩

theorem list_len7 {α : Type} (r : List α) (h : r.length = 7) :
    ∃ a b c d e f g, r = [a, b, c, d, e, f, g] := by
  rcases r with _ | ⟨a, r⟩
  · simp at h
  rcases r with _ | ⟨b, r⟩
  · simp at h
  rcases r with _ | ⟨c, r⟩
  · simp at h
  rcases r with _ | ⟨d, r⟩
  · simp at h
  rcases r with _ | ⟨e, r⟩
  · simp at h
  rcases r with _ | ⟨f, r⟩
  · simp at h
  rcases r with _ | ⟨g, r⟩
  · simp at h
  rcases r with _ | ⟨x, r⟩
  · exact ⟨a, b, c, d, e, f, g, rfl⟩
  · simp only [List.length_cons] at h
    omega

theorem tableLoop_pos (rs : List (List String)) : ∀ n, n ≠ 0 → (∀ r ∈ rs, r.length = 7) →
    tableLoop rs n = .ok (strJoin ((countFrom n rs).map (fun pr =>
      trBody (if pr.1 % 2 = 0 then " class=\"even\"" else "")
        (pr.2.getD 0 "") (pr.2.getD 1 "") (pr.2.getD 2 "") (pr.2.getD 3 "")
        (pr.2.getD 4 "") (pr.2.getD 5 "") (pr.2.getD 6 "")))) := by
  induction rs with
  | nil => intro n _ _; rfl
  | cons r rs ih =>
    intro n hn hlen
    obtain ⟨a, b, c, d, e, f, g, hr⟩ := list_len7 r (hlen r (by simp))
    subst hr
    rw [show tableLoop ([a, b, c, d, e, f, g] :: rs) n =
      (tableLoop rs (n + 1)).map
        ((if n = 0 then trHead a b c d e f g
          else trBody (if n % 2 = 0 then " class=\"even\"" else "") a b c d e f g) ++ ·)
      from rfl]
    rw [if_neg hn]
    rw [ih (n + 1) (by omega) (fun q hq => hlen q (by simp [hq]))]
    rfl

/-- C9: for any CSV produced by the writer, the generated HTML table opens
with a header row whose cells are exactly the CSV header fields Date, Lat,
Lon, Speed (mph), Accuracy, Type, Address in that order, and each body row at
running count k (the header row is count 0) carries the even class exactly
when k is even, i.e. first on the second data row. -/
theorem html_table_header_and_zebra (geo : ℚ → ℚ → GeoResponse) (pts : List TrackPoint)
    (rows : List (List String))
    (h : append_csv_and_plots geo (some pts) = .ok rows) :
    ∃ body, rows = headerRow :: body ∧
      generate_pdf_table rows =
        .ok ("<div id=\"data\"><table style=\"width: 100%;\">" ++
          (trHead "Date" "Lat" "Lon" "Speed (mph)" "Accuracy" "Type" "Address" ++
            (strJoin ((countFrom 1 body).map (fun pr =>
              trBody (if pr.1 % 2 = 0 then " class=\"even\"" else "")
                (pr.2.getD 0 "") (pr.2.getD 1 "") (pr.2.getD 2 "") (pr.2.getD 3 "")
                (pr.2.getD 4 "") (pr.2.getD 5 "") (pr.2.getD 6 ""))) ++
              "</table></div>"))) := by
  simp only [append_csv_and_plots] at h
  cases hw : writeRows geo pts with
  | error e => rw [hw] at h; exact absurd h (by simp [Except.map])
  | ok body =>
    rw [hw] at h
    simp only [Except.map, Except.ok.injEq] at h
    subst h
    refine ⟨body, rfl, ?_⟩
    have h7 := writeRows_len7 geo pts body hw
    have hloop : tableLoop (headerRow :: body) 0 =
        .ok (trHead "Date" "Lat" "Lon" "Speed (mph)" "Accuracy" "Type" "Address" ++
          strJoin ((countFrom 1 body).map (fun pr =>
            trBody (if pr.1 % 2 = 0 then " class=\"even\"" else "")
              (pr.2.getD 0 "") (pr.2.getD 1 "") (pr.2.getD 2 "") (pr.2.getD 3 "")
              (pr.2.getD 4 "") (pr.2.getD 5 "") (pr.2.getD 6 "")))) := by
      rw [show tableLoop (headerRow :: body) 0 =
        (tableLoop body 1).map
          (trHead "Date" "Lat" "Lon" "Speed (mph)" "Accuracy" "Type" "Address" ++ ·)
        from rfl]
      rw [tableLoop_pos body 1 (by omega) h7]
      rfl
    rw [show generate_pdf_table (headerRow :: body) =
      (tableLoop (headerRow :: body) 0).map
        (fun t => "<div id=\"data\"><table style=\"width: 100%;\">" ++ t ++ "</table></div>")
      from rfl]
    rw [hloop]
    simp only [Except.map, Except.ok.injEq]
    simp only [String.append_assoc]

/-- Witness for C9 at the three-point scenario. -/
theorem html_table_header_and_zebra_witness :
    append_csv_and_plots c5geo (some [sp1, sp2, sp3]) = .ok wrows ∧
    (∃ body, wrows = headerRow :: body ∧
      generate_pdf_table wrows =
        .ok ("<div id=\"data\"><table style=\"width: 100%;\">" ++
          (trHead "Date" "Lat" "Lon" "Speed (mph)" "Accuracy" "Type" "Address" ++
            (strJoin ((countFrom 1 body).map (fun pr =>
              trBody (if pr.1 % 2 = 0 then " class=\"even\"" else "")
                (pr.2.getD 0 "") (pr.2.getD 1 "") (pr.2.getD 2 "") (pr.2.getD 3 "")
                (pr.2.getD 4 "") (pr.2.getD 5 "") (pr.2.getD 6 ""))) ++
              "</table></div>")))) :=
  ⟨by rfl, html_table_header_and_zebra c5geo [sp1, sp2, sp3] wrows (by rfl)⟩
